import Mathlib

/-!
Verification development for the qr-student-app backend core: the QR
attendance-session lifecycle (src/backend/src/controllers/userController.js,
QR section), geofenced attendance submission and offline-sync reconciliation
(src/backend/src/controllers/attendanceController.js), and the schedule
merge/split engine (the schedule controller).

Modelling conventions used by the shallow embedding:

* Mongo ObjectId values and other opaque identifiers are abstracted to `Nat`.
  The 32-hex `sessionId` strings of QR sessions are likewise abstracted to
  `Nat`; the regex guard of the controllers is modelled by passing the
  parameter as `Option Nat`, `none` standing for a string that fails the
  `/^[a-f0-9]{32}$/` test.
* Wall-clock timestamps are `Int` milliseconds since the epoch; the
  minute-granularity `"HH:mm"` schedule times are `Nat` minutes since
  midnight.  The zero-padded `"HH:mm"` string comparisons performed by the
  Mongo `$lt`/`$gt` query operators coincide with numeric order on minutes.
* Each controller is a pure function from its request data and a database
  snapshot to a typed result paired with the successor database.  Mongo
  `findOne` becomes `List.find?`; `save` of a fresh document appends or
  prepends a record carrying a fresh identifier; `save`/`updateOne` of a
  loaded document maps an in-place replacement over the collection.
* Audit-log writes, response population of display fields, and the
  fire-and-forget logging are not modelled: they never influence the data
  that the claims are about.
* The floating-point Haversine distance (src/utils/geo.js) is kept abstract:
  the attendance controllers take the distance function as an explicit
  parameter `dist`, standing for `calculateDistance`, and the claims below
  never depend on its numeric values.
* JSON web tokens are abstracted to the `Nat` drawn for them; the multi
  format token parsing of validateQRToken is modelled by the inductive
  `RawToken` whose constructors are the parse outcomes of the three
  accepted encodings.
-/

namespace QrStudentApp

/-- Raw identifier arriving in a request: either a string that mongoose can
cast to an ObjectId (abstracted to a `Nat`) or a malformed string. -/
inductive ObjRef where
  | valid (id : Nat)
  | malformed
deriving DecidableEq

/-- Embeds `mongoose.isValidObjectId` applied to a raw request identifier. -/
def isValidObjectId : ObjRef → Bool
  | .valid _ => true
  | .malformed => false

/-- Embeds `mongoose.isValidObjectId` applied to a JavaScript boolean value.
A boolean is neither an ObjectId instance, a castable string, a number, nor a
12-byte buffer, so every mongoose version returns `false` on it.  The
`mergeSchedules` controller passes the boolean result of
`scheduleIds.every(...)` to `mongoose.isValidObjectId`, which is where this
function is used. -/
def isValidObjectIdOfBool (_b : Bool) : Bool := false

/-- Attendance status enum of the attendance schema. -/
inductive AttStatus where
  | present
  | late
  | absent
deriving DecidableEq

/-- Latitude/longitude pair; degrees are abstracted to `Int`. -/
structure Coordinates where
  latitude : Int
  longitude : Int
deriving DecidableEq

/-- Authenticated user attached to the request by the auth middleware. -/
structure Caller where
  uid : Nat
  role : String
deriving DecidableEq

/-- Environment-variable configuration read by the controllers, with the
defaults QR_SESSION_EXPIRY_MINUTES=5, MAX_ATTENDANCE_DISTANCE_METERS=100,
LATE_THRESHOLD_MINUTES=15. -/
structure Env where
  qrSessionExpiryMinutes : Nat
  maxAttendanceDistanceMeters : Nat
  lateThresholdMinutes : Nat
deriving DecidableEq

def defaultEnv : Env :=
  { qrSessionExpiryMinutes := 5
    maxAttendanceDistanceMeters := 100
    lateThresholdMinutes := 15 }

/-- Weekly schedule document (scheduleModel.js).  `sid` is the Mongo `_id`. -/
structure Schedule where
  sid : Nat
  classId : Nat
  teacherId : Nat
  sessionType : String
  dayOfWeek : String
  startTime : Nat
  endTime : Nat
  roomNumber : String
  semester : String
  academicYear : String
  loc : Int × Int
  isActive : Bool
deriving DecidableEq

/-- The mutable part of the signed QR payload stored on a session document.
`token` is the signed JWT abstracted to the `Nat` drawn for it; `staticInfo`
abstracts the frozen class display block (classNumber, subjectCode,
subjectName, classYear, semester, division) copied from the class at
generation time. -/
structure QRPayload where
  token : Nat
  timestamp : Int
  coordinates : Coordinates
  staticInfo : Nat
deriving DecidableEq

/-- QR attendance session document (qrCodeSessionModel.js).  `oid` is the
Mongo `_id`; `sessionId` is the external 32-hex identifier. -/
structure QRSession where
  oid : Nat
  sessionId : Nat
  classId : Nat
  scheduleId : Option Nat
  teacherId : Nat
  qrPayload : QRPayload
  expiresAt : Int
  isActive : Bool
deriving DecidableEq

/-- Class enrollment document (classEnrollmentModel.js), reduced to the
fields the attendance and QR controllers query. -/
structure Enrollment where
  classId : Nat
  studentId : Nat
  isActive : Bool
deriving DecidableEq

/-- Attendance record document (attendanceModel.js).  `oid` is the Mongo
`_id`; `sessionId` holds the ObjectId of the QR session document, `none` for
manual entries. -/
structure Attendance where
  oid : Nat
  studentId : Nat
  sessionId : Option Nat
  classId : Nat
  scheduleId : Option Nat
  studentCoordinates : Option Coordinates
  livenessPassed : Bool
  faceEmbedding : List Int
  synced : Bool
  syncVersion : Nat
  manualEntry : Bool
  status : AttStatus
  attendedAt : Int
deriving DecidableEq

/-- Database snapshot: the collections the modelled controllers touch, plus
a fresh-identifier counter standing for Mongo ObjectId generation. -/
structure DB where
  classes : List Nat
  schedules : List Schedule
  sessions : List QRSession
  enrollments : List Enrollment
  attendances : List Attendance
  nextOid : Nat
deriving DecidableEq

/-- Floor of `now` to the start of its UTC day, matching the
`now.toISOString().split('T')[0]` date extraction of the attendance
controller. -/
def dayStartMs (now : Int) : Int :=
  86400000 * Int.fdiv now 86400000

/-- Millisecond timestamp of a schedule `"HH:mm"` start on the day of `now`:
the `new Date(dateString + 'T' + schedule.startTime + ':00')` construction of
the attendance controller (server clock taken as UTC). -/
def scheduleStartOnDay (now : Int) (startMin : Nat) : Int :=
  dayStartMs now + (startMin : Int) * 60000

/-! ### Schedule engine (schedule controller) -/

/-- The `findById` lookup on the schedule collection. -/
def findScheduleById (db : DB) (i : Nat) : Option Schedule :=
  db.schedules.find? (fun s => decide (s.sid = i))

/-- Request body of createSchedule; also the field set the modelled
updateSchedule writes.  The embedding models requests carrying the full
field set (the route usage), with `isActive` the optional extra field that
updateScheduleValidation additionally admits on update. -/
structure ScheduleReq where
  classId : ObjRef
  teacherId : ObjRef
  sessionType : String
  dayOfWeek : String
  startTime : Nat
  endTime : Nat
  roomNumber : String
  semester : String
  academicYear : String
  loc : Int × Int
  isActive : Option Bool
deriving DecidableEq

/-- Conflict probe shared by createSchedule, updateSchedule and
checkScheduleConflict: an active schedule of the same teacher and day with
`startTime < end` and `endTime > start`.  `excludeId` carries the
`_id: { $ne: id }` clause of updateSchedule. -/
def findConflicting (db : DB) (excludeId : Option Nat) (teacherId : Nat)
    (day : String) (startT endT : Nat) : Option Schedule :=
  db.schedules.find? (fun s =>
    (match excludeId with
      | some i => decide (s.sid ≠ i)
      | none => true) &&
    decide (s.teacherId = teacherId) && decide (s.dayOfWeek = day) &&
    s.isActive && decide (s.startTime < endT) && decide (startT < s.endTime))

inductive CreateResult where
  | ok (s : Schedule)
  | invalidIds
  | teacherMismatch
  | conflict (s : Schedule)
deriving DecidableEq

/-- Embeds createSchedule of the schedule controller. -/
def createSchedule (caller : Caller) (req : ScheduleReq) (db : DB) :
    CreateResult × DB :=
  match req.classId, req.teacherId with
  | .valid classId, .valid teacherId =>
    if decide (teacherId ≠ caller.uid) && decide (caller.role ≠ "admin") then
      (.teacherMismatch, db)
    else
      match findConflicting db none teacherId req.dayOfWeek req.startTime req.endTime with
      | some c => (.conflict c, db)
      | none =>
        let s : Schedule :=
          { sid := db.nextOid
            classId := classId
            teacherId := teacherId
            sessionType := req.sessionType
            dayOfWeek := req.dayOfWeek
            startTime := req.startTime
            endTime := req.endTime
            roomNumber := req.roomNumber
            semester := req.semester
            academicYear := req.academicYear
            loc := req.loc
            isActive := true }
        (.ok s, { db with schedules := db.schedules ++ [s], nextOid := db.nextOid + 1 })
  | _, _ => (.invalidIds, db)

inductive UpdateResult where
  | ok (s : Schedule)
  | invalidIds
  | teacherMismatch
  | conflict (s : Schedule)
  | notFound
deriving DecidableEq

/-- The document written by the `findByIdAndUpdate` call of updateSchedule:
every destructured body field is set; `isActive` is set only when the body
carries it (mongoose drops `undefined` fields from the update). -/
def applyUpdate (req : ScheduleReq) (classId teacherId : Nat) (s : Schedule) : Schedule :=
  { s with
    classId := classId
    teacherId := teacherId
    sessionType := req.sessionType
    dayOfWeek := req.dayOfWeek
    startTime := req.startTime
    endTime := req.endTime
    roomNumber := req.roomNumber
    semester := req.semester
    academicYear := req.academicYear
    loc := req.loc
    isActive := req.isActive.getD s.isActive }

/-- Embeds updateSchedule of the schedule controller: conflict check
excluding the updated id, then `findByIdAndUpdate` with the body fields
(including the body `isActive`, when present, whatever the current flag). -/
def updateSchedule (caller : Caller) (id : ObjRef) (req : ScheduleReq) (db : DB) :
    UpdateResult × DB :=
  match id, req.classId, req.teacherId with
  | .valid i, .valid classId, .valid teacherId =>
    if decide (teacherId ≠ caller.uid) && decide (caller.role ≠ "admin") then
      (.teacherMismatch, db)
    else
      match findConflicting db (some i) teacherId req.dayOfWeek req.startTime req.endTime with
      | some c => (.conflict c, db)
      | none =>
        match findScheduleById db i with
        | none => (.notFound, db)
        | some s =>
          let s' := applyUpdate req classId teacherId s
          (.ok s',
            { db with schedules := db.schedules.map (fun t => if t.sid = i then applyUpdate req classId teacherId t else t) })
  | _, _, _ => (.invalidIds, db)

inductive DeleteResult where
  | ok
  | invalidId
  | notFound
  | notAuthorized
deriving DecidableEq

/-- Embeds deleteSchedule: soft delete, setting `isActive := false` on the
loaded document. -/
def deleteSchedule (caller : Caller) (id : ObjRef) (db : DB) : DeleteResult × DB :=
  match id with
  | .malformed => (.invalidId, db)
  | .valid i =>
    match findScheduleById db i with
    | none => (.notFound, db)
    | some s =>
      if decide (s.teacherId ≠ caller.uid) && decide (caller.role ≠ "admin") then
        (.notAuthorized, db)
      else
        (.ok, { db with schedules := db.schedules.map (fun t => if t.sid = i then { t with isActive := false } else t) })

inductive MergeResult where
  | ok (s : Schedule)
  | invalidIds
  | notFound
  | cannotMerge
  | notAuthorized
deriving DecidableEq

/-- The reachable remainder of mergeSchedules after its identifier guard:
load the active schedules among the ids, require all of them found, require
equal day/class/teacher/room, authorize, create the spanning schedule, and
deactivate the inputs.  In the JavaScript source this code is dead: the
guard in front of it (see `mergeSchedules`) throws on every request. -/
def mergeSchedulesBody (caller : Caller) (scheduleIds : List ObjRef) (db : DB) :
    MergeResult × DB :=
  let ids := scheduleIds.filterMap (fun r => match r with | .valid i => some i | .malformed => none)
  let schedules := db.schedules.filter (fun s => ids.contains s.sid && s.isActive)
  if schedules.length ≠ scheduleIds.length then (.notFound, db)
  else
    match schedules with
    | [] => (.notFound, db)
    | first :: _ =>
      let canMerge := schedules.all (fun s =>
        decide (s.dayOfWeek = first.dayOfWeek) && decide (s.classId = first.classId) &&
        decide (s.teacherId = first.teacherId) && decide (s.roomNumber = first.roomNumber))
      if !canMerge then (.cannotMerge, db)
      else if decide (first.teacherId ≠ caller.uid) && decide (caller.role ≠ "admin") then
        (.notAuthorized, db)
      else
        let merged : Schedule :=
          { sid := db.nextOid
            classId := first.classId
            teacherId := first.teacherId
            sessionType := first.sessionType
            dayOfWeek := first.dayOfWeek
            startTime := (schedules.map Schedule.startTime).foldl Nat.min first.startTime
            endTime := (schedules.map Schedule.endTime).foldl Nat.max first.endTime
            roomNumber := first.roomNumber
            semester := first.semester
            academicYear := first.academicYear
            loc := first.loc
            isActive := true }
        let withMerged := db.schedules ++ [merged]
        (.ok merged,
          { db with
            schedules := withMerged.map (fun t => if ids.contains t.sid then { t with isActive := false } else t)
            nextOid := db.nextOid + 1 })

/-- Embeds mergeSchedules of the schedule controller, including its
identifier guard, which reads
`if (!mongoose.isValidObjectId(scheduleIds.every((id) => mongoose.isValidObjectId(id)))) throw ...`:
the outer `isValidObjectId` receives the boolean produced by `every`, and
mongoose returns `false` for any boolean, so the guard throws on every
request and the rest of the function is unreachable. -/
def mergeSchedules (caller : Caller) (scheduleIds : List ObjRef) (db : DB) :
    MergeResult × DB :=
  if !(isValidObjectIdOfBool (scheduleIds.all isValidObjectId)) then
    (.invalidIds, db)
  else
    mergeSchedulesBody caller scheduleIds db

inductive SplitResult where
  | ok (newSchedules : List Schedule)
  | invalidId
  | notFound
  | notAuthorized
  | invalidSplitPoint
deriving DecidableEq

/-- Loop of splitSchedule over `[...splitPoints, originalSchedule.endTime]`.
A split point is `Option Nat`: `none` stands for a string moment cannot
parse as `"HH:mm"`.  Each fragment is saved (appended, with a fresh id)
before the next point is validated, so fragments persist when a later point
is rejected; the original is deactivated only after the whole loop. -/
def splitLoop (orig : Schedule) (cur : Nat) (pts : List (Option Nat))
    (db : DB) (acc : List Schedule) : SplitResult × DB :=
  match pts with
  | [] =>
    (.ok acc.reverse,
      { db with schedules := db.schedules.map (fun t => if t.sid = orig.sid then { t with isActive := false } else t) })
  | p :: rest =>
    match p with
    | none => (.invalidSplitPoint, db)
    | some t =>
      if t ≤ cur then (.invalidSplitPoint, db)
      else
        let ns : Schedule :=
          { orig with sid := db.nextOid, startTime := cur, endTime := t, isActive := true }
        splitLoop orig t rest
          { db with schedules := db.schedules ++ [ns], nextOid := db.nextOid + 1 }
          (ns :: acc)

/-- Embeds splitSchedule of the schedule controller. -/
def splitSchedule (caller : Caller) (id : ObjRef) (splitPoints : List (Option Nat))
    (db : DB) : SplitResult × DB :=
  match id with
  | .malformed => (.invalidId, db)
  | .valid i =>
    match findScheduleById db i with
    | none => (.notFound, db)
    | some orig =>
      if decide (orig.teacherId ≠ caller.uid) && decide (caller.role ≠ "admin") then
        (.notAuthorized, db)
      else
        splitLoop orig orig.startTime (splitPoints ++ [some orig.endTime]) db []

/-! ### QR session lifecycle (QR section of the user controller) -/

/-- Request body of generateQRSession.  `coordinates` is `none` when the
body carries no usable coordinate object (the controller rejects falsy or
non-numeric coordinates together with out-of-range ones); `teacherId` is the
body field the controller deliberately ignores. -/
structure GenerateReq where
  classId : ObjRef
  scheduleId : Option ObjRef
  coordinates : Option Coordinates
  teacherId : Option Nat
deriving DecidableEq

/-- Embeds the coordinate range test of generateQRSession: valid when
latitude lies in [-90, 90] and longitude in [-180, 180]. -/
def validCoordinatesB (c : Coordinates) : Bool :=
  decide (-90 ≤ c.latitude) && decide (c.latitude ≤ 90) &&
  decide (-180 ≤ c.longitude) && decide (c.longitude ≤ 180)

inductive GenerateResult where
  | ok (sessionId : Nat) (token : Nat) (expiresAt : Int)
  | invalidClassId
  | invalidScheduleId
  | invalidCoordinates
  | classNotFound
  | scheduleNotFound
  | notAuthorizedForSchedule
deriving DecidableEq

/-- Embeds generateQRSession.  `freshSessionId` stands for the 16 random
bytes rendered as 32 hex characters, `freshOid` for the Mongo id of the new
document, `freshToken` for the signed minimal JWT.  The authenticated
caller `auth` is used for the persisted `teacherId`; the body `teacherId`
is never read. -/
def generateQRSession (env : Env) (auth : Nat) (now : Int)
    (freshSessionId freshOid freshToken : Nat) (req : GenerateReq) (db : DB) :
    GenerateResult × DB :=
  match req.classId with
  | .malformed => (.invalidClassId, db)
  | .valid classId =>
    if (match req.scheduleId with | some .malformed => true | _ => false) then
      (.invalidScheduleId, db)
    else
      match req.coordinates with
      | none => (.invalidCoordinates, db)
      | some coords =>
        if !validCoordinatesB coords then (.invalidCoordinates, db)
        else if !(db.classes.contains classId) then (.classNotFound, db)
        else
          match req.scheduleId with
          | some (.valid schId) =>
            (match db.schedules.find? (fun s => decide (s.sid = schId)) with
              | none => (.scheduleNotFound, db)
              | some sch =>
                if sch.teacherId ≠ auth then (.notAuthorizedForSchedule, db)
                else
                  let expiresAt := now + ((env.qrSessionExpiryMinutes * 60000 : Nat) : Int)
                  let s : QRSession :=
                    { oid := freshOid
                      sessionId := freshSessionId
                      classId := classId
                      scheduleId := some schId
                      teacherId := auth
                      qrPayload :=
                        { token := freshToken, timestamp := now
                          coordinates := coords, staticInfo := classId }
                      expiresAt := expiresAt
                      isActive := true }
                  (.ok freshSessionId freshToken expiresAt, { db with sessions := s :: db.sessions }))
          | _ =>
            let expiresAt := now + ((env.qrSessionExpiryMinutes * 60000 : Nat) : Int)
            let s : QRSession :=
              { oid := freshOid
                sessionId := freshSessionId
                classId := classId
                scheduleId := none
                teacherId := auth
                qrPayload :=
                  { token := freshToken, timestamp := now
                    coordinates := coords, staticInfo := classId }
                expiresAt := expiresAt
                isActive := true }
            (.ok freshSessionId freshToken expiresAt, { db with sessions := s :: db.sessions })

/-- The `findOne` filter of refreshQRToken: same sessionId, owned by the
caller, `isActive: true`, `expiresAt: { $gt: new Date() }`. -/
def findRefreshSession (db : DB) (auth : Nat) (now : Int) (sid : Nat) : Option QRSession :=
  db.sessions.find? (fun s =>
    decide (s.sessionId = sid) && decide (s.teacherId = auth) &&
    s.isActive && decide (now < s.expiresAt))

inductive RefreshResult where
  | ok (token : Nat) (expiredAt : Int)
  | invalidSessionId
  | notFound
deriving DecidableEq

/-- Embeds refreshQRToken.  The loaded session gets a fresh payload token
and timestamp, and its `expiresAt` is reassigned to
`now + QR_SESSION_EXPIRY_MINUTES` (the controller recomputes the full
expiry window on every refresh); the updated document is saved in place. -/
def refreshQRToken (env : Env) (auth : Nat) (now : Int) (newToken : Nat)
    (sessionIdParam : Option Nat) (db : DB) : RefreshResult × DB :=
  match sessionIdParam with
  | none => (.invalidSessionId, db)
  | some sid =>
    match findRefreshSession db auth now sid with
    | none => (.notFound, db)
    | some s =>
      let newExpiresAt := now + ((env.qrSessionExpiryMinutes * 60000 : Nat) : Int)
      let s' : QRSession :=
        { s with
          qrPayload := { s.qrPayload with token := newToken, timestamp := now }
          expiresAt := newExpiresAt }
      (.ok newToken newExpiresAt,
        { db with sessions := db.sessions.map (fun t => if t.oid = s.oid then s' else t) })

/-- Parse outcome of the raw token string handed to validateQRToken.  The
constructors follow the ordered fallback of the controller: JSON payload
carrying a `sessionId` field, JSON payload whose `token` field starts with
`"QR_"`, JSON payload with neither, a plain `"QR_" + sessionId` reference, a
JWT that verifies and carries a `sid`/`sessionId` claim, a verifying JWT
without such a claim, and a string that fits no format. -/
inductive RawToken where
  | jsonSessionId (sid : Nat)
  | jsonQrRef (sid : Nat)
  | jsonNeither
  | qrRef (sid : Nat)
  | jwtSid (sid : Nat)
  | jwtNoSid
  | unparsable
deriving DecidableEq

inductive TokenErr where
  | invalidFormat
  | missingSessionId
deriving DecidableEq

/-- Token resolution cascade of validateQRToken, returning the extracted
sessionId or the error the controller responds with. -/
def resolveToken : RawToken → Except TokenErr Nat
  | .jsonSessionId sid => .ok sid
  | .jsonQrRef sid => .ok sid
  | .jsonNeither => .error .missingSessionId
  | .qrRef sid => .ok sid
  | .jwtSid sid => .ok sid
  | .jwtNoSid => .error .missingSessionId
  | .unparsable => .error .invalidFormat

inductive ValidateResult where
  | ok (sessionId : Nat) (classId : Nat) (scheduleId : Option Nat)
  | invalidFormat
  | missingSessionId
  | expiredOrInvalid
  | notEnrolled
deriving DecidableEq

def ValidateResult.isOk : ValidateResult → Bool
  | .ok _ _ _ => true
  | _ => false

/-- The enrollment probe shared by validateQRToken and the attendance
controllers: an active ClassEnrollment for the class and student. -/
def findEnrollment (db : DB) (classId studentId : Nat) : Option Enrollment :=
  db.enrollments.find? (fun e =>
    decide (e.classId = classId) && decide (e.studentId = studentId) && e.isActive)

/-- Embeds validateQRToken: resolve the token, load the session with the
`isActive`/`expiresAt` filter, then require the calling student to be
actively enrolled in the class of the session. -/
def validateQRToken (now : Int) (studentId : Nat) (tok : RawToken) (db : DB) :
    ValidateResult :=
  match resolveToken tok with
  | .error .invalidFormat => .invalidFormat
  | .error .missingSessionId => .missingSessionId
  | .ok sid =>
    match db.sessions.find? (fun s =>
        decide (s.sessionId = sid) && s.isActive && decide (now < s.expiresAt)) with
    | none => .expiredOrInvalid
    | some s =>
      match findEnrollment db s.classId studentId with
      | none => .notEnrolled
      | some _ => .ok s.sessionId s.classId s.scheduleId

/-! ### Attendance submission and offline sync (attendance controller) -/

/-- Request body of submitAttendance.  `sessionId` is the external 32-hex
session string (`none` for a falsy value). -/
structure SubmitReq where
  sessionId : Option Nat
  classId : ObjRef
  scheduleId : Option ObjRef
  studentCoordinates : Coordinates
  livenessPassed : Option Bool
  faceEmbedding : Option (List Int)
deriving DecidableEq

/-- The `findOne` filter of submitAttendance for the session: by external
sessionId with `isActive: true` and unexpired. -/
def findActiveSession (db : DB) (sid : Nat) (now : Int) : Option QRSession :=
  db.sessions.find? (fun s =>
    decide (s.sessionId = sid) && s.isActive && decide (now < s.expiresAt))

/-- Session lookup of syncAttendance: by external sessionId only — unlike
submitAttendance it carries no `isActive` and no `expiresAt` clause. -/
def findSessionBySid (db : DB) (sid : Nat) : Option QRSession :=
  db.sessions.find? (fun s => decide (s.sessionId = sid))

/-- Duplicate probe of both attendance paths: record for the (QR session
ObjectId, student) pair. -/
def findPairAttendance (db : DB) (qrOid studentId : Nat) : Option Attendance :=
  db.attendances.find? (fun a =>
    decide (a.sessionId = some qrOid) && decide (a.studentId = studentId))

/-- Optional schedule lookup of the attendance paths: the `findById` issued
when the request carries a scheduleId. -/
def attScheduleLookup (db : DB) : Option ObjRef → Option Schedule
  | some (.valid i) => findScheduleById db i
  | _ => none

/-- A well-formed optional schedule reference: absent, or a valid id whose
schedule exists.  Used to state the hypotheses of the sync theorems. -/
def scheduleRefOk (db : DB) : Option ObjRef → Bool
  | none => true
  | some (.valid i) => (findScheduleById db i).isSome
  | some .malformed => false

/-- Status computation shared by submitAttendance and syncAttendance:
`late` exactly when the reference time is strictly beyond the schedule
start plus LATE_THRESHOLD_MINUTES, `present` otherwise (and `present`
whenever no schedule is attached). -/
def lateStatus (env : Env) (refTime : Int) (schedule : Option Schedule) : AttStatus :=
  match schedule with
  | none => .present
  | some sch =>
    if refTime ≤ scheduleStartOnDay refTime sch.startTime + ((env.lateThresholdMinutes * 60000 : Nat) : Int) then
      .present
    else
      .late

inductive SubmitResult where
  | ok (rec : Attendance)
  | invalidIds
  | sessionNotFound
  | notEnrolled
  | scheduleNotFound
  | tooFar
  | alreadySubmitted
deriving DecidableEq

/-- Embeds submitAttendance.  `dist` stands for the floating-point
calculateDistance of src/utils/geo.js, kept abstract. -/
def submitAttendance (env : Env) (dist : Coordinates → Coordinates → Nat)
    (now : Int) (studentId : Nat) (req : SubmitReq) (db : DB) : SubmitResult × DB :=
  match req.sessionId with
  | none => (.invalidIds, db)
  | some sid =>
    match req.classId with
    | .malformed => (.invalidIds, db)
    | .valid classId =>
      if (match req.scheduleId with | some .malformed => true | _ => false) then
        (.invalidIds, db)
      else
        match findActiveSession db sid now with
        | none => (.sessionNotFound, db)
        | some qrSession =>
          match findEnrollment db classId studentId with
          | none => (.notEnrolled, db)
          | some _ =>
            let schedule? : Option Schedule := attScheduleLookup db req.scheduleId
            if (match req.scheduleId with | some _ => schedule?.isNone | none => false) then
              (.scheduleNotFound, db)
            else if env.maxAttendanceDistanceMeters < dist req.studentCoordinates qrSession.qrPayload.coordinates then
              (.tooFar, db)
            else
              match findPairAttendance db qrSession.oid studentId with
              | some _ => (.alreadySubmitted, db)
              | none =>
                let rec_ : Attendance :=
                  { oid := db.nextOid
                    studentId := studentId
                    sessionId := some qrSession.oid
                    classId := classId
                    scheduleId := (match req.scheduleId with | some (.valid i) => some i | _ => none)
                    studentCoordinates := some req.studentCoordinates
                    livenessPassed := req.livenessPassed.getD false
                    faceEmbedding := req.faceEmbedding.getD []
                    synced := true
                    syncVersion := 1
                    manualEntry := false
                    status := lateStatus env now schedule?
                    attendedAt := now }
                (.ok rec_,
                  { db with attendances := db.attendances ++ [rec_], nextOid := db.nextOid + 1 })

/-- One item of the offline sync batch. -/
structure SyncItem where
  sessionId : Option Nat
  classId : ObjRef
  scheduleId : Option ObjRef
  studentCoordinates : Coordinates
  livenessPassed : Option Bool
  faceEmbedding : Option (List Int)
  syncVersion : Nat
  attendedAt : Int
deriving DecidableEq

inductive SyncFailReason where
  | invalidIds
  | invalidSession
  | notEnrolled
  | invalidSchedule
  | tooFar
deriving DecidableEq

inductive SyncOutcome where
  | success
  | failed (reason : SyncFailReason)
  | skipped
deriving DecidableEq

/-- The `$set` document of the syncAttendance `updateOne` call, applied to
the existing record: every field of `attendanceData` is overwritten
(`scheduleId` only when the item carries one); the Mongo `_id` and the
fields absent from `attendanceData` (`manualEntry`) are untouched. -/
def applySyncSet (env : Env) (studentId : Nat) (qrOid : Nat)
    (classId : Nat) (item : SyncItem) (schedule? : Option Schedule)
    (a : Attendance) : Attendance :=
  { a with
    studentId := studentId
    sessionId := some qrOid
    classId := classId
    scheduleId := (match item.scheduleId with | some (.valid i) => some i | _ => a.scheduleId)
    studentCoordinates := some item.studentCoordinates
    livenessPassed := item.livenessPassed.getD false
    faceEmbedding := item.faceEmbedding.getD []
    synced := true
    syncVersion := item.syncVersion
    status := lateStatus env item.attendedAt schedule?
    attendedAt := item.attendedAt }

/-- Tail of the sync item processing once every pre-version check has
passed: the version-aware upsert on the (session, student) pair.  An
existing record with `syncVersion ≥ item.syncVersion` short-circuits to
`skipped` without touching the store; a lower one is overwritten in place
through `updateOne` on its `_id`; an absent one leads to a fresh insert. -/
def syncUpsert (env : Env) (studentId : Nat) (db : DB) (item : SyncItem)
    (qrSession : QRSession) (classId : Nat) : SyncOutcome × DB :=
  let schedule? : Option Schedule := attScheduleLookup db item.scheduleId
  match findPairAttendance db qrSession.oid studentId with
  | some existing =>
    if item.syncVersion ≤ existing.syncVersion then (.skipped, db)
    else
      (.success,
        { db with attendances := db.attendances.map (fun a =>
            if a.oid = existing.oid then
              applySyncSet env studentId qrSession.oid classId item schedule? a
            else a) })
  | none =>
    let rec_ : Attendance :=
      { oid := db.nextOid
        studentId := studentId
        sessionId := some qrSession.oid
        classId := classId
        scheduleId := (match item.scheduleId with | some (.valid i) => some i | _ => none)
        studentCoordinates := some item.studentCoordinates
        livenessPassed := item.livenessPassed.getD false
        faceEmbedding := item.faceEmbedding.getD []
        synced := true
        syncVersion := item.syncVersion
        manualEntry := false
        status := lateStatus env item.attendedAt schedule?
        attendedAt := item.attendedAt }
    (.success,
      { db with attendances := db.attendances ++ [rec_], nextOid := db.nextOid + 1 })

/-- Embeds the per-item body of the syncAttendance loop.  Note the session
lookup (`findSessionBySid`) carries no activity or expiry clause; the
duplicate handling is the version-aware `syncUpsert`. -/
def processSyncItem (env : Env) (dist : Coordinates → Coordinates → Nat)
    (studentId : Nat) (db : DB) (item : SyncItem) : SyncOutcome × DB :=
  match item.sessionId with
  | none => (.failed .invalidIds, db)
  | some sid =>
    match item.classId with
    | .malformed => (.failed .invalidIds, db)
    | .valid classId =>
      if (match item.scheduleId with | some .malformed => true | _ => false) then
        (.failed .invalidIds, db)
      else
        match findSessionBySid db sid with
        | none => (.failed .invalidSession, db)
        | some qrSession =>
          match findEnrollment db classId studentId with
          | none => (.failed .notEnrolled, db)
          | some _ =>
            if (match item.scheduleId with
                | some _ => (attScheduleLookup db item.scheduleId).isNone
                | none => false) then
              (.failed .invalidSchedule, db)
            else if env.maxAttendanceDistanceMeters < dist item.studentCoordinates qrSession.qrPayload.coordinates then
              (.failed .tooFar, db)
            else
              syncUpsert env studentId db item qrSession classId

/-- Embeds syncAttendance as the in-order fold of `processSyncItem` over the
batch, collecting the per-item outcomes; a failure of one item never aborts
the rest. -/
def syncAttendance (env : Env) (dist : Coordinates → Coordinates → Nat)
    (studentId : Nat) (items : List SyncItem) (db : DB) :
    List SyncOutcome × DB :=
  items.foldl
    (fun (st : List SyncOutcome × DB) item =>
      let r := processSyncItem env dist studentId st.2 item
      (st.1 ++ [r.1], r.2))
    ([], db)

/-! ### Derived notions used to state the claims -/

/-- Post-state of a successful refresh relative to the loaded session `s`:
the collection keeps its size, every other session survives untouched, and
the updated document carries the fresh token and timestamp, the reassigned
expiry, and all remaining fields of `s` unchanged. -/
def refreshPostState (env : Env) (now : Int) (newToken : Nat) (s : QRSession)
    (pre post : DB) : Prop :=
  post.sessions.length = pre.sessions.length ∧
  (∀ t ∈ pre.sessions, t.oid ≠ s.oid → t ∈ post.sessions) ∧
  ∃ s' ∈ post.sessions,
    s'.oid = s.oid ∧
    s'.qrPayload.token = newToken ∧
    s'.qrPayload.timestamp = now ∧
    s'.expiresAt = now + ((env.qrSessionExpiryMinutes * 60000 : Nat) : Int) ∧
    s'.sessionId = s.sessionId ∧ s'.classId = s.classId ∧
    s'.scheduleId = s.scheduleId ∧ s'.teacherId = s.teacherId ∧
    s'.isActive = s.isActive ∧
    s'.qrPayload.coordinates = s.qrPayload.coordinates ∧
    s'.qrPayload.staticInfo = s.qrPayload.staticInfo

/-- Spec-side description of the fragments a successful split produces: one
schedule per segment of the boundary list `cur :: pts ++ [orig.endTime]`,
each inheriting every remaining attribute of the original, carrying
consecutive fresh identifiers from `firstOid`. -/
def splitSegments (orig : Schedule) (cur : Nat) (pts : List Nat) (firstOid : Nat) :
    List Schedule :=
  match pts with
  | [] => [{ orig with sid := firstOid, startTime := cur, endTime := orig.endTime, isActive := true }]
  | p :: rest =>
    { orig with sid := firstOid, startTime := cur, endTime := p, isActive := true }
      :: splitSegments orig p rest (firstOid + 1)

/-- Number of attendance records held for a (QR session ObjectId, student)
pair. -/
def pairCount (db : DB) (qrOid studentId : Nat) : Nat :=
  (db.attendances.filter (fun a =>
    decide (a.sessionId = some qrOid) && decide (a.studentId = studentId))).length

/-- Absence of reactivation: every schedule of `post` carrying the watched
identifier is inactive. -/
def noReactivation (post : DB) (sid : Nat) : Prop :=
  ∀ s' ∈ post.schedules, s'.sid = sid → s'.isActive = false

/-- Distance function standing for calculateDistance in concrete
instantiations where both coordinates coincide (Haversine distance 0). -/
def distZero : Coordinates → Coordinates → Nat := fun _ _ => 0

/-! ### Concrete fixtures for counterexamples and witnesses -/

/-- An active, unexpired session owned by teacher 5, expiring at t=60000. -/
def c1Session : QRSession :=
  { oid := 1, sessionId := 11, classId := 2, scheduleId := none, teacherId := 5
    qrPayload := { token := 7, timestamp := 0, coordinates := ⟨0, 0⟩, staticInfo := 2 }
    expiresAt := 60000, isActive := true }

def c1Db : DB :=
  { classes := [2], schedules := [], sessions := [c1Session]
    enrollments := [], attendances := [], nextOid := 50 }

/-- A terminated and expired session: `isActive = false` and
`expiresAt = 10`, in the past of every item below. -/
def c2Session : QRSession :=
  { oid := 1, sessionId := 11, classId := 2, scheduleId := none, teacherId := 5
    qrPayload := { token := 7, timestamp := 0, coordinates := ⟨0, 0⟩, staticInfo := 2 }
    expiresAt := 10, isActive := false }

def c2Db : DB :=
  { classes := [2], schedules := [], sessions := [c2Session]
    enrollments := [⟨2, 9, true⟩], attendances := [], nextOid := 100 }

def c2Item : SyncItem :=
  { sessionId := some 11, classId := .valid 2, scheduleId := none
    studentCoordinates := ⟨0, 0⟩, livenessPassed := none, faceEmbedding := none
    syncVersion := 1, attendedAt := 50 }

/-- Fixture for validate: an active, unexpired session whose class has no
enrollment for student 9. -/
def c3Db : DB :=
  { classes := [2], schedules := [], sessions := [c1Session]
    enrollments := [], attendances := [], nextOid := 50 }

/-- Enrollment-backed variant of `c3Db` used by the witness. -/
def c3DbEnrolled : DB :=
  { classes := [2], schedules := [], sessions := [c1Session]
    enrollments := [⟨2, 9, true⟩], attendances := [], nextOid := 50 }

/-- The 09:00-13:15 Monday schedule of the split scenario, owned by
teacher 5. -/
def c5Orig : Schedule :=
  { sid := 1, classId := 2, teacherId := 5, sessionType := "lecture"
    dayOfWeek := "Monday", startTime := 540, endTime := 795
    roomNumber := "A101", semester := "5", academicYear := "2024-25"
    loc := (0, 0), isActive := true }

def c5Db : DB :=
  { classes := [2], schedules := [c5Orig], sessions := []
    enrollments := [], attendances := [], nextOid := 2 }

/-- Fragment persisted by the failing split of the atomicity
counterexample: the 09:00-10:00 piece saved before the rejected second
point. -/
def c6Fragment : Schedule :=
  { c5Orig with sid := 2, startTime := 540, endTime := 600 }

/-- An inactive Monday schedule and the full-body update request that
switches it back on. -/
def c7Inactive : Schedule :=
  { sid := 4, classId := 2, teacherId := 5, sessionType := "lecture"
    dayOfWeek := "Monday", startTime := 540, endTime := 600
    roomNumber := "A101", semester := "5", academicYear := "2024-25"
    loc := (0, 0), isActive := false }

def c7Db : DB :=
  { classes := [2], schedules := [c7Inactive], sessions := []
    enrollments := [], attendances := [], nextOid := 10 }

def c7Req : ScheduleReq :=
  { classId := .valid 2, teacherId := .valid 5, sessionType := "lecture"
    dayOfWeek := "Monday", startTime := 540, endTime := 600
    roomNumber := "A101", semester := "5", academicYear := "2024-25"
    loc := (0, 0), isActive := some true }

/-- Fixture for the lateness boundary: a 09:00-10:00 schedule, an active
session for its class, and an enrolled student 9. -/
def c8Schedule : Schedule :=
  { sid := 3, classId := 2, teacherId := 5, sessionType := "lecture"
    dayOfWeek := "Monday", startTime := 540, endTime := 600
    roomNumber := "A101", semester := "5", academicYear := "2024-25"
    loc := (0, 0), isActive := true }

def c8Session : QRSession :=
  { oid := 1, sessionId := 11, classId := 2, scheduleId := some 3, teacherId := 5
    qrPayload := { token := 7, timestamp := 0, coordinates := ⟨0, 0⟩, staticInfo := 2 }
    expiresAt := 40000000, isActive := true }

def c8Db : DB :=
  { classes := [2], schedules := [c8Schedule], sessions := [c8Session]
    enrollments := [⟨2, 9, true⟩], attendances := [], nextOid := 100 }

def c8Req : SubmitReq :=
  { sessionId := some 11, classId := .valid 2, scheduleId := some (.valid 3)
    studentCoordinates := ⟨0, 0⟩, livenessPassed := none, faceEmbedding := none }

/-- Fixture for sync version control: an existing record for the pair
(session ObjectId 1, student 9) at syncVersion 3. -/
def c9Existing : Attendance :=
  { oid := 20, studentId := 9, sessionId := some 1, classId := 2
    scheduleId := none, studentCoordinates := some ⟨0, 0⟩, livenessPassed := false
    faceEmbedding := [], synced := true, syncVersion := 3, manualEntry := false
    status := .present, attendedAt := 40 }

def c9Db : DB :=
  { classes := [2], schedules := [], sessions := [c2Session]
    enrollments := [⟨2, 9, true⟩], attendances := [c9Existing], nextOid := 100 }

def c9Item : SyncItem :=
  { sessionId := some 11, classId := .valid 2, scheduleId := none
    studentCoordinates := ⟨0, 0⟩, livenessPassed := none, faceEmbedding := none
    syncVersion := 5, attendedAt := 50 }

/-! ### Theorems -/

/-- C4: the claim states that merging two or more active schedules sharing
class, teacher, day and room succeeds and produces the spanning schedule.
The controller never gets there: its guard applies `mongoose.isValidObjectId`
to the boolean produced by `scheduleIds.every(...)`, which is `false` for
every boolean, so every merge request — including a perfectly mergeable
one — is rejected with the invalid-ids error and the database is left
untouched. -/
theorem mergeSchedules_always_invalidIds (caller : Caller)
    (scheduleIds : List ObjRef) (db : DB) :
    mergeSchedules caller scheduleIds db = (.invalidIds, db) := rfl

/-- C6: atomicity fails for split.  Splitting the 09:00-13:15 schedule at
the points 10:00 then 09:30 signals the invalid-split-point error, yet the
09:00-10:00 fragment saved before the rejected point persists in the
database and the original schedule is still active: the claimed
all-or-nothing behaviour does not hold. -/
theorem split_midway_failure_persists_fragment :
    splitSchedule ⟨5, "teacher"⟩ (.valid 1) [some 600, some 570] c5Db
      = (.invalidSplitPoint,
         { c5Db with schedules := c5Db.schedules ++ [c6Fragment], nextOid := 3 }) ∧
    c6Fragment.isActive = true ∧
    ((splitSchedule ⟨5, "teacher"⟩ (.valid 1) [some 600, some 570] c5Db).2.schedules.map
        Schedule.isActive) = [true, true] := by decide

/-- C1 counterexample: for the active, unexpired session of teacher 5 with
`expiresAt = 60000`, a refresh at t=0 (default 5-minute lifetime) succeeds
and reassigns the stored `expiresAt` to 300000 — the claim that `expiresAt`
is left unchanged by refresh is false. -/
theorem refresh_moves_expiresAt_cex :
    findRefreshSession c1Db 5 0 11 = some c1Session ∧
    c1Session.expiresAt = 60000 ∧
    ((refreshQRToken defaultEnv 5 0 99 (some 11) c1Db).2.sessions.map
        QRSession.expiresAt) = [300000] ∧
    (60000 : Int) ≠ 300000 := by decide

/-- C2 counterexample: a sync item referencing the terminated session
`c2Session` (isActive = false, expiresAt = 10 < attendedAt = 50) is not
reported as failed: it is processed to `success` and an attendance record
for the session is created. -/
theorem sync_accepts_terminated_session_cex :
    c2Session.isActive = false ∧
    c2Session.expiresAt < c2Item.attendedAt ∧
    (processSyncItem defaultEnv distZero 9 c2Db c2Item).1 = .success ∧
    ((processSyncItem defaultEnv distZero 9 c2Db c2Item).2.attendances.map
        Attendance.sessionId) = [some 1] := by decide

/-- C7 counterexample: updating the inactive schedule `c7Inactive` with a
full body carrying `isActive: true` succeeds and writes the flag through,
transitioning the schedule from Inactive back to Active. -/
theorem update_reactivates_inactive_cex :
    c7Inactive.isActive = false ∧
    (updateSchedule ⟨5, "teacher"⟩ (.valid 4) c7Req c7Db).1
      = .ok (applyUpdate c7Req 2 5 c7Inactive) ∧
    ((updateSchedule ⟨5, "teacher"⟩ (.valid 4) c7Req c7Db).2.schedules.map
        Schedule.isActive) = [true] := by decide

/-- C8 counterexample: a student submitting exactly 15 minutes after the
09:00 schedule start (t = 33300000 = 09:15 UTC, threshold 15 minutes) is
persisted as `present`, not `late`: the status only turns `late` strictly
beyond the threshold. -/
theorem late_at_exact_threshold_cex :
    (33300000 : Int) = scheduleStartOnDay 33300000 540 + 900000 ∧
    ((submitAttendance defaultEnv distZero 33300000 9 c8Req c8Db).2.attendances.map
        Attendance.status) = [AttStatus.present] := by decide

/-- C3 counterexample: the session of `c3Db` is active and unexpired at
t=0, yet validate for student 9 — who has no enrollment — does not succeed:
it answers the not-enrolled error, so validity of the session alone is not
equivalent to a successful validate. -/
theorem validate_rejects_unenrolled_cex :
    c1Session.isActive = true ∧
    (0 : Int) < c1Session.expiresAt ∧
    validateQRToken 0 9 (.qrRef 11) c3Db = .notEnrolled ∧
    (validateQRToken 0 9 (.qrRef 11) c3Db).isOk = false := by decide

/-- Helper: a `find?` over a list whose only possible satisfier is `a`
answers `some a` exactly when `a` satisfies the predicate. -/
theorem find?_eq_of_unique {α : Type} (p : α → Bool) (l : List α) (a : α)
    (ha : a ∈ l) (huniq : ∀ b ∈ l, p b = true → b = a) :
    l.find? p = if p a = true then some a else none := by
  induction l with
  | nil => cases ha
  | cons b t ih =>
    by_cases hpb : p b = true
    · have hba : b = a := huniq b (List.mem_cons_self b t) hpb
      subst hba
      simp [List.find?_cons_of_pos _ hpb, hpb]
    · rw [List.find?_cons_of_neg _ hpb]
      rcases List.mem_cons.mp ha with hab | hat
      · subst hab
        rw [if_neg hpb, List.find?_eq_none]
        intro x hx hpx
        have hxb := huniq x (List.mem_cons_of_mem _ hx) hpx
        subst hxb
        exact hpb hpx
      · exact ih hat (fun c hc hpc => huniq c (List.mem_cons_of_mem _ hc) hpc)

/-- C10: generateQRSession never reads the request-body `teacherId`: two
generate calls whose bodies differ only in that field produce identical
results and identical database successors, and any session the call
persists carries the authenticated caller as its `teacherId`. -/
theorem generate_ignores_body_teacherId (env : Env) (auth : Nat) (now : Int)
    (fsid foid ftok : Nat) (cid : ObjRef) (schId : Option ObjRef)
    (coords : Option Coordinates) (tid1 tid2 : Option Nat) (db : DB) :
    generateQRSession env auth now fsid foid ftok ⟨cid, schId, coords, tid1⟩ db
      = generateQRSession env auth now fsid foid ftok ⟨cid, schId, coords, tid2⟩ db ∧
    ∀ s ∈ (generateQRSession env auth now fsid foid ftok ⟨cid, schId, coords, tid1⟩ db).2.sessions,
      s ∉ db.sessions → s.teacherId = auth := by
  constructor
  · rfl
  · intro s hs hns
    unfold generateQRSession at hs
    repeat' split at hs
    all_goals simp_all

/-- C1 (amended): for every session satisfying the refresh filter — active,
unexpired, owned by the caller — refresh succeeds with the fresh token and
reports the reassigned expiry; in the stored collection only that session
changes, and on it exactly the payload token, the payload timestamp, and
`expiresAt` (moved to now + session lifetime) change, every other field
being preserved. -/
theorem refresh_extends_expiry (env : Env) (auth : Nat) (now : Int)
    (newToken : Nat) (sid : Nat) (db : DB) (s : QRSession)
    (h : findRefreshSession db auth now sid = some s) :
    (refreshQRToken env auth now newToken (some sid) db).1
      = .ok newToken (now + ((env.qrSessionExpiryMinutes * 60000 : Nat) : Int)) ∧
    refreshPostState env now newToken s db
      (refreshQRToken env auth now newToken (some sid) db).2 := by
  have hmem : s ∈ db.sessions := List.mem_of_find?_eq_some h
  unfold refreshQRToken
  dsimp only
  rw [h]
  dsimp only
  unfold refreshPostState
  refine ⟨rfl, by simp, ?_, ?_⟩
  · intro t ht hne
    exact List.mem_map.mpr ⟨t, ht, if_neg hne⟩
  · refine ⟨{ s with
        qrPayload := { s.qrPayload with token := newToken, timestamp := now }
        expiresAt := now + ((env.qrSessionExpiryMinutes * 60000 : Nat) : Int) },
      List.mem_map.mpr ⟨s, hmem, ?_⟩, rfl, rfl, rfl, rfl, rfl, rfl, rfl, rfl, rfl, rfl, rfl⟩
    rw [if_pos rfl]

/-- C1 witness: the amended refresh theorem instantiated on the active,
unexpired session of `c1Db` at t=0 with the default five-minute lifetime. -/
theorem refresh_extends_expiry_witness :
    (refreshQRToken defaultEnv 5 0 99 (some 11) c1Db).1
      = .ok 99 (0 + ((defaultEnv.qrSessionExpiryMinutes * 60000 : Nat) : Int)) ∧
    refreshPostState defaultEnv 0 99 c1Session c1Db
      (refreshQRToken defaultEnv 5 0 99 (some 11) c1Db).2 :=
  refresh_extends_expiry defaultEnv 5 0 99 11 c1Db c1Session (by decide)

/-- C3 (amended): for a stored session with a unique external sessionId and
any accepted encoding of its token, validate succeeds exactly when the
session is active, unexpired, and the calling student is actively enrolled
in its class; on success it answers the canonical sessionId (with the
session class and schedule), and the expired-or-invalid error is signalled
exactly when the session fails the activity/expiry test. -/
theorem validate_succeeds_iff (now : Int) (studentId : Nat) (tok : RawToken)
    (db : DB) (s : QRSession)
    (hmem : s ∈ db.sessions)
    (huniq : ∀ s' ∈ db.sessions, s'.sessionId = s.sessionId → s' = s)
    (hres : resolveToken tok = .ok s.sessionId) :
    ((validateQRToken now studentId tok db).isOk = true ↔
      (s.isActive = true ∧ now < s.expiresAt ∧
        (findEnrollment db s.classId studentId).isSome = true)) ∧
    ((s.isActive = true ∧ now < s.expiresAt ∧
        (findEnrollment db s.classId studentId).isSome = true) →
      validateQRToken now studentId tok db = .ok s.sessionId s.classId s.scheduleId) ∧
    (validateQRToken now studentId tok db = .expiredOrInvalid ↔
      ¬ (s.isActive = true ∧ now < s.expiresAt)) := by
  have hfind : db.sessions.find?
      (fun s' => decide (s'.sessionId = s.sessionId) && s'.isActive && decide (now < s'.expiresAt))
      = if (decide (s.sessionId = s.sessionId) && s.isActive && decide (now < s.expiresAt)) = true
        then some s else none := by
    apply find?_eq_of_unique _ _ _ hmem
    intro b hb hpb
    refine huniq b hb ?_
    have hb1 := (Bool.and_eq_true _ _).mp ((Bool.and_eq_true _ _).mp hpb).1
    exact of_decide_eq_true hb1.1
  unfold validateQRToken
  rw [hres]
  dsimp only
  rw [hfind]
  by_cases hact : s.isActive = true
  · by_cases hexp : now < s.expiresAt
    · rw [if_pos (by simp [hact, hexp])]
      cases henr : findEnrollment db s.classId studentId with
      | none => simp [ValidateResult.isOk, hact, hexp, henr]
      | some e => simp [ValidateResult.isOk, hact, hexp, henr]
    · rw [if_neg (by simp [hexp])]
      simp [ValidateResult.isOk, hact, hexp]
  · rw [if_neg (by simp [hact])]
    simp [ValidateResult.isOk, hact]

/-- C3 witness: the characterization instantiated on the enrollment-backed
fixture, where the session is active and unexpired at t=0 and student 9 is
enrolled. -/
theorem validate_succeeds_iff_witness :
    ((validateQRToken 0 9 (.qrRef 11) c3DbEnrolled).isOk = true ↔
      (c1Session.isActive = true ∧ (0 : Int) < c1Session.expiresAt ∧
        (findEnrollment c3DbEnrolled c1Session.classId 9).isSome = true)) ∧
    ((c1Session.isActive = true ∧ (0 : Int) < c1Session.expiresAt ∧
        (findEnrollment c3DbEnrolled c1Session.classId 9).isSome = true) →
      validateQRToken 0 9 (.qrRef 11) c3DbEnrolled
        = .ok c1Session.sessionId c1Session.classId c1Session.scheduleId) ∧
    (validateQRToken 0 9 (.qrRef 11) c3DbEnrolled = .expiredOrInvalid ↔
      ¬ (c1Session.isActive = true ∧ (0 : Int) < c1Session.expiresAt)) :=
  validate_succeeds_iff 0 9 (.qrRef 11) c3DbEnrolled c1Session
    (by decide) (by decide) rfl

/-- Helper: the length of a filter is unchanged by mapping a function that
preserves the predicate on every element of the list. -/
theorem length_filter_map_congr {α : Type} (p : α → Bool) (f : α → α) (l : List α)
    (h : ∀ a ∈ l, p (f a) = p a) :
    ((l.map f).filter p).length = (l.filter p).length := by
  induction l with
  | nil => rfl
  | cons b t ih =>
    simp only [List.map_cons, List.filter_cons]
    rw [h b (List.mem_cons_self b t)]
    cases hpb : p b with
    | false => exact ih (fun a ha => h a (List.mem_cons_of_mem _ ha))
    | true => simp [ih (fun a ha => h a (List.mem_cons_of_mem _ ha))]

/-- Helper: a sync item that passes every pre-version check reduces to the
version-aware upsert on its pair. -/
theorem processSyncItem_eq_upsert (env : Env)
    (dist : Coordinates → Coordinates → Nat) (studentId : Nat) (db : DB)
    (item : SyncItem) (sid classId : Nat) (s : QRSession)
    (hsid : item.sessionId = some sid)
    (hcid : item.classId = .valid classId)
    (hfind : findSessionBySid db sid = some s)
    (hsch : scheduleRefOk db item.scheduleId = true)
    (henr : (findEnrollment db classId studentId).isSome = true)
    (hdist : dist item.studentCoordinates s.qrPayload.coordinates
      ≤ env.maxAttendanceDistanceMeters) :
    processSyncItem env dist studentId db item
      = syncUpsert env studentId db item s classId := by
  obtain ⟨e, he⟩ := Option.isSome_iff_exists.mp henr
  have hnotmal : (match item.scheduleId with | some .malformed => true | _ => false) = false := by
    cases h0 : item.scheduleId with
    | none => rfl
    | some r =>
      cases r with
      | valid i => rfl
      | malformed => rw [h0] at hsch; simp [scheduleRefOk] at hsch
  have hnotnone : (match item.scheduleId with
      | some _ => (attScheduleLookup db item.scheduleId).isNone
      | none => false) = false := by
    cases h0 : item.scheduleId with
    | none => rfl
    | some r =>
      cases r with
      | malformed => rw [h0] at hsch; simp [scheduleRefOk] at hsch
      | valid i =>
        rw [h0] at hsch
        simp only [scheduleRefOk] at hsch
        obtain ⟨sch, hsch2⟩ := Option.isSome_iff_exists.mp hsch
        simp [attScheduleLookup, h0, hsch2]
  unfold processSyncItem
  rw [hsid, hcid]
  dsimp only
  rw [if_neg (by simp [hnotmal]), hfind]
  dsimp only
  rw [he]
  dsimp only
  rw [if_neg (by simp [hnotnone]), if_neg (not_lt.mpr hdist)]

/-- C2 (amended): a sync item is validated for identifier shape, session
existence, enrollment, schedule existence and proximity like a live submit,
but unlike submit the session lookup carries no `isActive` and no
`expiresAt` clause: under the remaining checks alone — nothing is assumed
about the activity or expiry of the referenced session — the item succeeds
and a record for the (session, student) pair is created or overwritten. -/
theorem syncItem_ignores_session_state (env : Env)
    (dist : Coordinates → Coordinates → Nat) (studentId : Nat) (db : DB)
    (item : SyncItem) (sid classId : Nat) (s : QRSession)
    (hsid : item.sessionId = some sid)
    (hcid : item.classId = .valid classId)
    (hfind : findSessionBySid db sid = some s)
    (hsch : scheduleRefOk db item.scheduleId = true)
    (henr : (findEnrollment db classId studentId).isSome = true)
    (hdist : dist item.studentCoordinates s.qrPayload.coordinates
      ≤ env.maxAttendanceDistanceMeters)
    (hver : ∀ ex ∈ db.attendances, ex.sessionId = some s.oid →
      ex.studentId = studentId → ex.syncVersion < item.syncVersion) :
    (processSyncItem env dist studentId db item).1 = .success ∧
    ∃ a ∈ (processSyncItem env dist studentId db item).2.attendances,
      a.studentId = studentId ∧ a.sessionId = some s.oid ∧
      a.syncVersion = item.syncVersion := by
  rw [processSyncItem_eq_upsert env dist studentId db item sid classId s
    hsid hcid hfind hsch henr hdist]
  unfold syncUpsert
  dsimp only
  cases hpair : findPairAttendance db s.oid studentId with
  | none =>
    exact ⟨rfl, _, List.mem_append_right _ (List.mem_singleton_self _), rfl, rfl, rfl⟩
  | some ex =>
    have hpair' := hpair
    unfold findPairAttendance at hpair'
    have hex_mem : ex ∈ db.attendances := List.mem_of_find?_eq_some hpair'
    have hex_p := List.find?_some hpair'
    have hsid' : ex.sessionId = some s.oid :=
      of_decide_eq_true ((Bool.and_eq_true _ _).mp hex_p).1
    have hstu : ex.studentId = studentId :=
      of_decide_eq_true ((Bool.and_eq_true _ _).mp hex_p).2
    have hlt := hver ex hex_mem hsid' hstu
    dsimp only
    rw [if_neg (by omega)]
    exact ⟨rfl, _, List.mem_map.mpr ⟨ex, hex_mem, by rw [if_pos rfl]⟩, rfl, rfl, rfl⟩

/-- C2 witness: the theorem applied to the fixture whose only session is
terminated (isActive = false) and long expired, showing the hypotheses say
nothing about session state: the item still succeeds. -/
theorem syncItem_ignores_session_state_witness :
    (processSyncItem defaultEnv distZero 9 c2Db c2Item).1 = .success ∧
    ∃ a ∈ (processSyncItem defaultEnv distZero 9 c2Db c2Item).2.attendances,
      a.studentId = 9 ∧ a.sessionId = some c2Session.oid ∧
      a.syncVersion = c2Item.syncVersion :=
  syncItem_ignores_session_state defaultEnv distZero 9 c2Db c2Item 11 2 c2Session
    rfl rfl (by decide) (by decide) (by decide) (by decide) (by decide)

/-- C9: version-aware duplicate handling of sync for a pair that already
has a record: an item with a less-or-equal syncVersion is skipped and the
database is untouched (so re-syncing an identical item is idempotent),
while a strictly higher syncVersion overwrites the existing record in
place — the collection keeps its length and the number of records held for
the pair is unchanged, so no second record is ever created for it. -/
theorem syncItem_version_control (env : Env)
    (dist : Coordinates → Coordinates → Nat) (studentId : Nat) (db : DB)
    (item : SyncItem) (sid classId : Nat) (s : QRSession) (ex : Attendance)
    (hsid : item.sessionId = some sid)
    (hcid : item.classId = .valid classId)
    (hfind : findSessionBySid db sid = some s)
    (hsch : scheduleRefOk db item.scheduleId = true)
    (henr : (findEnrollment db classId studentId).isSome = true)
    (hdist : dist item.studentCoordinates s.qrPayload.coordinates
      ≤ env.maxAttendanceDistanceMeters)
    (hpair : findPairAttendance db s.oid studentId = some ex)
    (huniq : ∀ a ∈ db.attendances, a.oid = ex.oid → a = ex) :
    (item.syncVersion ≤ ex.syncVersion →
      processSyncItem env dist studentId db item = (.skipped, db)) ∧
    (ex.syncVersion < item.syncVersion →
      (processSyncItem env dist studentId db item).1 = .success ∧
      (processSyncItem env dist studentId db item).2.attendances
        = db.attendances.map (fun a => if a.oid = ex.oid then
            applySyncSet env studentId s.oid classId item
              (attScheduleLookup db item.scheduleId) a
          else a) ∧
      pairCount (processSyncItem env dist studentId db item).2 s.oid studentId
        = pairCount db s.oid studentId ∧
      (processSyncItem env dist studentId db item).2.attendances.length
        = db.attendances.length) := by
  rw [processSyncItem_eq_upsert env dist studentId db item sid classId s
    hsid hcid hfind hsch henr hdist]
  have hpair' := hpair
  unfold findPairAttendance at hpair'
  have hex_p := List.find?_some hpair'
  have hsid' : ex.sessionId = some s.oid :=
    of_decide_eq_true ((Bool.and_eq_true _ _).mp hex_p).1
  have hstu : ex.studentId = studentId :=
    of_decide_eq_true ((Bool.and_eq_true _ _).mp hex_p).2
  unfold syncUpsert
  dsimp only
  rw [hpair]
  dsimp only
  constructor
  · intro hle
    rw [if_pos hle]
  · intro hlt
    rw [if_neg (by omega)]
    refine ⟨rfl, rfl, ?_, by simp⟩
    unfold pairCount
    dsimp only
    apply length_filter_map_congr
    intro a ha
    by_cases hoid : a.oid = ex.oid
    · have hae : a = ex := huniq a ha hoid
      subst hae
      rw [if_pos hoid]
      simp [applySyncSet, hsid', hstu]
    · rw [if_neg hoid]

/-- C9 witness: the version-control theorem applied to a pair holding a
record at syncVersion 3 and an incoming item at syncVersion 5; the
overwrite branch is exercised by the strict inequality 3 < 5. -/
theorem syncItem_version_control_witness :
    (c9Item.syncVersion ≤ c9Existing.syncVersion →
      processSyncItem defaultEnv distZero 9 c9Db c9Item = (.skipped, c9Db)) ∧
    (c9Existing.syncVersion < c9Item.syncVersion →
      (processSyncItem defaultEnv distZero 9 c9Db c9Item).1 = .success ∧
      (processSyncItem defaultEnv distZero 9 c9Db c9Item).2.attendances
        = c9Db.attendances.map (fun a => if a.oid = c9Existing.oid then
            applySyncSet defaultEnv 9 c2Session.oid 2 c9Item
              (attScheduleLookup c9Db c9Item.scheduleId) a
          else a) ∧
      pairCount (processSyncItem defaultEnv distZero 9 c9Db c9Item).2 c2Session.oid 9
        = pairCount c9Db c2Session.oid 9 ∧
      (processSyncItem defaultEnv distZero 9 c9Db c9Item).2.attendances.length
        = c9Db.attendances.length) :=
  syncItem_version_control defaultEnv distZero 9 c9Db c9Item 11 2 c2Session c9Existing
    rfl rfl (by decide) (by decide) (by decide) (by decide) (by decide) (by decide)

/-- C8 (amended): for a submission carrying a scheduleId that passes every
check, exactly one record is appended, and its status is `late` precisely
when the submission time strictly exceeds the schedule start plus the late
threshold; at or before that bound — including exactly at it — the status
is `present`. -/
theorem submit_late_iff_beyond_threshold (env : Env)
    (dist : Coordinates → Coordinates → Nat) (now : Int) (studentId : Nat)
    (req : SubmitReq) (db : DB) (sid classId schId : Nat) (s : QRSession)
    (sch : Schedule)
    (hsid : req.sessionId = some sid)
    (hcid : req.classId = .valid classId)
    (hschid : req.scheduleId = some (.valid schId))
    (hsess : findActiveSession db sid now = some s)
    (henr : (findEnrollment db classId studentId).isSome = true)
    (hsch : findScheduleById db schId = some sch)
    (hdist : dist req.studentCoordinates s.qrPayload.coordinates
      ≤ env.maxAttendanceDistanceMeters)
    (hdup : findPairAttendance db s.oid studentId = none) :
    ∃ rec0,
      (submitAttendance env dist now studentId req db).1 = .ok rec0 ∧
      (submitAttendance env dist now studentId req db).2.attendances
        = db.attendances ++ [rec0] ∧
      (rec0.status = .late ↔
        scheduleStartOnDay now sch.startTime
          + ((env.lateThresholdMinutes * 60000 : Nat) : Int) < now) ∧
      (rec0.status = .present ↔
        now ≤ scheduleStartOnDay now sch.startTime
          + ((env.lateThresholdMinutes * 60000 : Nat) : Int)) := by
  obtain ⟨e, he⟩ := Option.isSome_iff_exists.mp henr
  have hnotmal : (match req.scheduleId with | some .malformed => true | _ => false) = false := by
    rw [hschid]
  have hnotnone : (match req.scheduleId with
      | some _ => (attScheduleLookup db req.scheduleId).isNone
      | none => false) = false := by
    rw [hschid]
    simp [attScheduleLookup, hsch]
  have hlook : attScheduleLookup db req.scheduleId = some sch := by
    rw [hschid]
    simpa [attScheduleLookup] using hsch
  unfold submitAttendance
  rw [hsid, hcid]
  dsimp only
  rw [if_neg (by simp [hnotmal]), hsess]
  dsimp only
  rw [he]
  dsimp only
  rw [if_neg (by simp [hnotnone]), if_neg (not_lt.mpr hdist), hdup]
  dsimp only
  rw [hlook]
  unfold lateStatus
  dsimp only
  by_cases hthr : now ≤ scheduleStartOnDay now sch.startTime
      + ((env.lateThresholdMinutes * 60000 : Nat) : Int)
  · rw [if_pos hthr]
    exact ⟨_, rfl, rfl,
      ⟨fun h => AttStatus.noConfusion h, fun h => absurd h (by omega)⟩,
      ⟨fun _ => hthr, fun _ => rfl⟩⟩
  · rw [if_neg hthr]
    exact ⟨_, rfl, rfl,
      ⟨fun _ => by omega, fun _ => rfl⟩,
      ⟨fun h => AttStatus.noConfusion h, fun h => absurd h (by omega)⟩⟩

/-- C8 witness: the lateness theorem at the spec scenario of nine minutes
past a 09:00 start with the default 15-minute threshold. -/
theorem submit_late_iff_beyond_threshold_witness :
    ∃ rec0,
      (submitAttendance defaultEnv distZero 32940000 9 c8Req c8Db).1 = .ok rec0 ∧
      (submitAttendance defaultEnv distZero 32940000 9 c8Req c8Db).2.attendances
        = c8Db.attendances ++ [rec0] ∧
      (rec0.status = .late ↔
        scheduleStartOnDay 32940000 c8Schedule.startTime
          + ((defaultEnv.lateThresholdMinutes * 60000 : Nat) : Int) < 32940000) ∧
      (rec0.status = .present ↔
        (32940000 : Int) ≤ scheduleStartOnDay 32940000 c8Schedule.startTime
          + ((defaultEnv.lateThresholdMinutes * 60000 : Nat) : Int)) :=
  submit_late_iff_beyond_threshold defaultEnv distZero 32940000 9 c8Req c8Db
    11 2 3 c8Session c8Schedule rfl rfl rfl (by decide) (by decide) (by decide)
    (by decide) (by decide)

/-- Helper: the number of fragments is the number of split points plus
one. -/
theorem splitSegments_length (orig : Schedule) (pts : List Nat) :
    ∀ (cur k : Nat), (splitSegments orig cur pts k).length = pts.length + 1 := by
  induction pts with
  | nil => intro cur k; rfl
  | cons p rest ih =>
    intro cur k
    simp only [splitSegments, List.length_cons, ih p (k + 1)]

/-- Helper: every fragment inherits the non-time attributes of the
original, is created active, and carries an identifier at or above the
first fresh one. -/
theorem splitSegments_inherit (orig : Schedule) (pts : List Nat) :
    ∀ (cur k : Nat), ∀ seg ∈ splitSegments orig cur pts k,
      seg.classId = orig.classId ∧ seg.teacherId = orig.teacherId ∧
      seg.sessionType = orig.sessionType ∧ seg.dayOfWeek = orig.dayOfWeek ∧
      seg.roomNumber = orig.roomNumber ∧ seg.semester = orig.semester ∧
      seg.academicYear = orig.academicYear ∧ seg.loc = orig.loc ∧
      seg.isActive = true ∧ k ≤ seg.sid := by
  induction pts with
  | nil =>
    intro cur k seg hseg
    unfold splitSegments at hseg
    rcases List.mem_singleton.mp hseg with rfl
    exact ⟨rfl, rfl, rfl, rfl, rfl, rfl, rfl, rfl, rfl, Nat.le_refl _⟩
  | cons p rest ih =>
    intro cur k seg hseg
    unfold splitSegments at hseg
    rcases List.mem_cons.mp hseg with rfl | h2
    · exact ⟨rfl, rfl, rfl, rfl, rfl, rfl, rfl, rfl, rfl, Nat.le_refl _⟩
    · obtain ⟨a1, a2, a3, a4, a5, a6, a7, a8, a9, hk⟩ := ih p (k + 1) seg h2
      exact ⟨a1, a2, a3, a4, a5, a6, a7, a8, a9, Nat.le_trans (Nat.le_succ k) hk⟩

/-- Helper: mapping a function that fixes every element of a list is the
identity on it. -/
theorem map_self_of_eq {α : Type} (f : α → α) (l : List α)
    (h : ∀ a ∈ l, f a = a) : l.map f = l := by
  induction l with
  | nil => rfl
  | cons b t ih =>
    simp only [List.map_cons]
    rw [h b (List.mem_cons_self b t), ih (fun a ha => h a (List.mem_cons_of_mem _ ha))]

/-- Helper: on a strictly increasing interior point list the split loop
succeeds, returning the accumulated fragments followed by the segment
partition, appending the fragments to the store and then deactivating every
schedule carrying the original identifier. -/
theorem splitLoop_ok (orig : Schedule) (pts : List Nat) :
    ∀ (cur : Nat) (db : DB) (acc : List Schedule),
    List.Chain (· < ·) cur pts →
    (∀ p ∈ pts, p < orig.endTime) →
    cur < orig.endTime →
    splitLoop orig cur (pts.map some ++ [some orig.endTime]) db acc
      = (.ok (acc.reverse ++ splitSegments orig cur pts db.nextOid),
         { db with
           schedules := (db.schedules ++ splitSegments orig cur pts db.nextOid).map
             (fun t => if t.sid = orig.sid then { t with isActive := false } else t)
           nextOid := db.nextOid + pts.length + 1 }) := by
  induction pts with
  | nil =>
    intro cur db acc _ _ hcur
    unfold splitLoop
    simp only [List.map_nil, List.nil_append]
    rw [if_neg (not_le.mpr hcur)]
    unfold splitLoop
    dsimp only
    unfold splitSegments
    simp

  | cons p rest ih =>
    intro cur db acc hchain hin hcur
    obtain ⟨hcp, hchain2⟩ := List.chain_cons.mp hchain
    unfold splitLoop
    simp only [List.map_cons, List.cons_append]
    rw [if_neg (not_le.mpr hcp)]
    rw [ih p _ _ hchain2 (fun q hq => hin q (List.mem_cons_of_mem _ hq))
      (hin p (List.mem_cons_self _ _))]
    simp [splitSegments, List.append_assoc]
    omega

/-- C5: splitting an active schedule at strictly increasing points strictly
inside its span succeeds for an authorized caller: it creates exactly k+1
fragments covering the segment partition of the boundary list, each
inheriting every non-time attribute of the original and created active with
a fresh identifier; in the store the fragments are appended intact while
the original is deactivated; and a first split point that is not strictly
after the running cursor — absent or at/before the start — is rejected with
the invalid-split-point error, leaving the store untouched. -/
theorem splitSchedule_partitions (caller : Caller) (db : DB) (i : Nat)
    (orig : Schedule) (pts : List Nat)
    (hid : findScheduleById db i = some orig)
    (hactive : orig.isActive = true)
    (hauth : orig.teacherId = caller.uid ∨ caller.role = "admin")
    (hchain : List.Chain (· < ·) orig.startTime pts)
    (hin : ∀ p ∈ pts, p < orig.endTime)
    (hse : orig.startTime < orig.endTime)
    (hfresh : ∀ t ∈ db.schedules, t.sid < db.nextOid) :
    splitSchedule caller (.valid i) (pts.map some) db
      = (.ok (splitSegments orig orig.startTime pts db.nextOid),
         { db with
           schedules := db.schedules.map
               (fun t => if t.sid = orig.sid then { t with isActive := false } else t)
             ++ splitSegments orig orig.startTime pts db.nextOid
           nextOid := db.nextOid + pts.length + 1 }) ∧
    (splitSegments orig orig.startTime pts db.nextOid).length = pts.length + 1 ∧
    (∀ seg ∈ splitSegments orig orig.startTime pts db.nextOid,
      seg.classId = orig.classId ∧ seg.teacherId = orig.teacherId ∧
      seg.sessionType = orig.sessionType ∧ seg.dayOfWeek = orig.dayOfWeek ∧
      seg.roomNumber = orig.roomNumber ∧ seg.semester = orig.semester ∧
      seg.academicYear = orig.academicYear ∧ seg.loc = orig.loc ∧
      seg.isActive = true) ∧
    (∀ (q : Option Nat) (qs : List (Option Nat)),
      (q = none ∨ ∃ tq, q = some tq ∧ tq ≤ orig.startTime) →
      splitSchedule caller (.valid i) (q :: qs) db = (.invalidSplitPoint, db)) := by
  have horig : orig.sid < db.nextOid :=
    hfresh orig (List.mem_of_find?_eq_some hid)
  have hcond : (decide (orig.teacherId ≠ caller.uid) && decide (caller.role ≠ "admin")) = false := by
    rcases hauth with h | h
    · simp [h]
    · simp [h]
  have hsegid : ∀ seg ∈ splitSegments orig orig.startTime pts db.nextOid,
      (if seg.sid = orig.sid then { seg with isActive := false } else seg) = seg := by
    intro seg hseg
    have hk := (splitSegments_inherit orig pts orig.startTime db.nextOid seg hseg).2.2.2.2.2.2.2.2.2
    rw [if_neg (by omega)]
  refine ⟨?_, splitSegments_length orig pts _ _,
    fun seg hseg => ⟨(splitSegments_inherit orig pts _ _ seg hseg).1,
      (splitSegments_inherit orig pts _ _ seg hseg).2.1,
      (splitSegments_inherit orig pts _ _ seg hseg).2.2.1,
      (splitSegments_inherit orig pts _ _ seg hseg).2.2.2.1,
      (splitSegments_inherit orig pts _ _ seg hseg).2.2.2.2.1,
      (splitSegments_inherit orig pts _ _ seg hseg).2.2.2.2.2.1,
      (splitSegments_inherit orig pts _ _ seg hseg).2.2.2.2.2.2.1,
      (splitSegments_inherit orig pts _ _ seg hseg).2.2.2.2.2.2.2.1,
      (splitSegments_inherit orig pts _ _ seg hseg).2.2.2.2.2.2.2.2.1⟩, ?_⟩
  · unfold splitSchedule
    dsimp only
    rw [hid]
    dsimp only
    rw [if_neg (by rw [hcond]; simp)]
    rw [splitLoop_ok orig pts orig.startTime db [] hchain hin hse]
    rw [List.map_append]
    rw [map_self_of_eq _ _ hsegid]
    simp
  · intro q qs hq
    unfold splitSchedule
    dsimp only
    rw [hid]
    dsimp only
    rw [if_neg (by rw [hcond]; simp)]
    simp only [List.cons_append]
    unfold splitLoop
    rcases hq with rfl | ⟨tq, rfl, htq⟩
    · rfl
    · dsimp only
      rw [if_pos htq]

/-- C5 witness: the spec scenario — splitting a 09:00-13:15 schedule at
10:00 and 11:15 — instantiated on the concrete fixture. -/
theorem splitSchedule_partitions_witness :
    splitSchedule ⟨5, "teacher"⟩ (.valid 1) ([600, 675].map some) c5Db
      = (.ok (splitSegments c5Orig c5Orig.startTime [600, 675] c5Db.nextOid),
         { c5Db with
           schedules := c5Db.schedules.map
               (fun t => if t.sid = c5Orig.sid then { t with isActive := false } else t)
             ++ splitSegments c5Orig c5Orig.startTime [600, 675] c5Db.nextOid
           nextOid := c5Db.nextOid + [600, 675].length + 1 }) ∧
    (splitSegments c5Orig c5Orig.startTime [600, 675] c5Db.nextOid).length
      = [600, 675].length + 1 ∧
    (∀ seg ∈ splitSegments c5Orig c5Orig.startTime [600, 675] c5Db.nextOid,
      seg.classId = c5Orig.classId ∧ seg.teacherId = c5Orig.teacherId ∧
      seg.sessionType = c5Orig.sessionType ∧ seg.dayOfWeek = c5Orig.dayOfWeek ∧
      seg.roomNumber = c5Orig.roomNumber ∧ seg.semester = c5Orig.semester ∧
      seg.academicYear = c5Orig.academicYear ∧ seg.loc = c5Orig.loc ∧
      seg.isActive = true) ∧
    (∀ (q : Option Nat) (qs : List (Option Nat)),
      (q = none ∨ ∃ tq, q = some tq ∧ tq ≤ c5Orig.startTime) →
      splitSchedule ⟨5, "teacher"⟩ (.valid 1) (q :: qs) c5Db
        = (.invalidSplitPoint, c5Db)) :=
  splitSchedule_partitions ⟨5, "teacher"⟩ c5Db 1 c5Orig [600, 675]
    (by decide) rfl (Or.inl rfl)
    (List.Chain.cons (by decide) (List.Chain.cons (by decide) List.Chain.nil))
    (by decide) (by decide) (by decide)

/-- Helper: the split loop never turns an inactive watched schedule active:
every fragment it saves carries a fresh identifier above the watched one,
and its final step only clears activity flags. -/
theorem splitLoop_noReactivation (orig : Schedule) (pts : List (Option Nat)) :
    ∀ (cur : Nat) (db : DB) (acc : List Schedule) (sidv : Nat),
    (∀ t ∈ db.schedules, t.sid = sidv → t.isActive = false) →
    sidv < db.nextOid →
    ∀ s' ∈ (splitLoop orig cur pts db acc).2.schedules, s'.sid = sidv → s'.isActive = false := by
  induction pts with
  | nil =>
    intro cur db acc sidv hinv hlt s' hs' hsid
    unfold splitLoop at hs'
    obtain ⟨t, ht, himg⟩ := List.mem_map.mp hs'
    by_cases hto : t.sid = orig.sid
    · rw [if_pos hto] at himg
      rw [← himg]
    · rw [if_neg hto] at himg
      rw [← himg] at hsid ⊢
      exact hinv t ht hsid
  | cons p rest ih =>
    intro cur db acc sidv hinv hlt
    unfold splitLoop
    cases p with
    | none => exact hinv
    | some t =>
      dsimp only
      by_cases htc : t ≤ cur
      · rw [if_pos htc]
        exact hinv
      · rw [if_neg htc]
        apply ih
        · intro u hu husid
          rcases List.mem_append.mp hu with hu1 | hu2
          · exact hinv u hu1 husid
          · rcases List.mem_singleton.mp hu2 with rfl
            have h2 : db.nextOid = sidv := husid
            omega
        · exact Nat.lt_succ_of_lt hlt

/-- C7 (amended): once a schedule is inactive, create, delete, merge and
split never turn it active again — creation and splitting only add fresh
documents and only clear activity flags, deletion only clears them, and
merge never reaches its mutations — but update is the exception the
counterexample exhibits: it writes the request body `isActive` through. -/
theorem inactive_stays_inactive_except_update (db : DB) (s : Schedule)
    (hfresh : ∀ t ∈ db.schedules, t.sid < db.nextOid)
    (hmem : s ∈ db.schedules)
    (huniq : ∀ t ∈ db.schedules, t.sid = s.sid → t = s)
    (hinactive : s.isActive = false) :
    (∀ (caller : Caller) (req : ScheduleReq),
      noReactivation (createSchedule caller req db).2 s.sid) ∧
    (∀ (caller : Caller) (id : ObjRef),
      noReactivation (deleteSchedule caller id db).2 s.sid) ∧
    (∀ (caller : Caller) (ids : List ObjRef),
      noReactivation (mergeSchedules caller ids db).2 s.sid) ∧
    (∀ (caller : Caller) (id : ObjRef) (pts : List (Option Nat)),
      noReactivation (splitSchedule caller id pts db).2 s.sid) := by
  have hinv : ∀ t ∈ db.schedules, t.sid = s.sid → t.isActive = false :=
    fun t ht h => (huniq t ht h) ▸ hinactive
  have hslt : s.sid < db.nextOid := hfresh s hmem
  refine ⟨?_, ?_, ?_, ?_⟩
  · intro caller req
    unfold noReactivation createSchedule
    split
    · split
      · exact hinv
      · split
        · exact hinv
        · intro s' hs' hsid
          rcases List.mem_append.mp hs' with h1 | h2
          · exact hinv s' h1 hsid
          · rcases List.mem_singleton.mp h2 with rfl
            have h2' : db.nextOid = s.sid := hsid
            omega
    · exact hinv
  · intro caller id
    unfold noReactivation deleteSchedule
    split
    · exact hinv
    · split
      · exact hinv
      · split
        · exact hinv
        · intro s' hs' hsid
          obtain ⟨t, ht, himg⟩ := List.mem_map.mp hs'
          split at himg
          · rw [← himg]
          · rw [← himg] at hsid ⊢
            exact hinv t ht hsid
  · intro caller ids
    exact hinv
  · intro caller id pts
    unfold noReactivation splitSchedule
    split
    · exact hinv
    · split
      · exact hinv
      · split
        · exact hinv
        · exact splitLoop_noReactivation _ _ _ _ _ _ hinv hslt

/-- C7 witness: the no-reactivation theorem instantiated on the inactive
schedule of `c7Db` and one concrete call of each operation. -/
theorem inactive_stays_inactive_except_update_witness :
    noReactivation (createSchedule ⟨5, "teacher"⟩ c7Req c7Db).2 4 ∧
    noReactivation (deleteSchedule ⟨5, "teacher"⟩ (.valid 4) c7Db).2 4 ∧
    noReactivation (mergeSchedules ⟨5, "teacher"⟩ [.valid 4] c7Db).2 4 ∧
    noReactivation (splitSchedule ⟨5, "teacher"⟩ (.valid 4) [some 570] c7Db).2 4 := by
  have h := inactive_stays_inactive_except_update c7Db c7Inactive
    (by decide) (by decide) (by decide) rfl
  exact ⟨h.1 ⟨5, "teacher"⟩ c7Req, h.2.1 ⟨5, "teacher"⟩ (.valid 4),
    h.2.2.1 ⟨5, "teacher"⟩ [.valid 4], h.2.2.2 ⟨5, "teacher"⟩ (.valid 4) [some 570]⟩

end QrStudentApp
